import Mathlib

/-!
Shallow embedding of the GameShelf Steam reconciliation layer
(`src/services/steamAmplifyService.ts`): the library-sync entry builder
(`SteamAmplifyService.syncGameLibrary`), the pure display helpers
(`formatPlaytime`, `getRecentActivity`, `getRecentAchievements`) and the
TTL-based localStorage cache of `GameDatabase` (`cacheData`,
`getCachedData`, `getTrendingGames`, `searchGames`).

Conventions of the embedding:
- JavaScript numbers holding minute counts, Unix timestamps and
  millisecond clocks are modelled as `Nat` (all values the code
  manipulates are nonnegative); `limit`/`page` arguments are `Int`
  because callers may pass negative values.
- A nullable JavaScript field is an `Option`; JS truthiness on numbers
  (`0` falsy) and strings (`""` falsy) is modelled explicitly by
  `truthyNat` / `truthyStr`.
- `localStorage` for one cache-key class is an association list from
  string keys to records; `JSON.stringify`/`parse` round-trips are
  identities in the typed model (the malformed-JSON catch branch is a
  miss and carries no other behaviour).
- Network calls are parameters: a fetch outcome is an `Except`/`Option`
  value handed to the function, and each catalog operation reports in
  its result whether it reached its fetch (`fetchIssued`), so claims
  about "no network call" are statable.
- JS `Array.prototype.sort` with a numeric comparator is modelled by a
  stable insertion sort on a `Nat` key (`sortByDesc`).
-/

/-! ## Generic list helpers: stable descending sort by key, JS slice -/

def insertByDesc {α : Type} (key : α → Nat) (a : α) : List α → List α
  | [] => [a]
  | b :: l => if key b ≤ key a then a :: b :: l else b :: insertByDesc key a l

def sortByDesc {α : Type} (key : α → Nat) : List α → List α
  | [] => []
  | a :: l => insertByDesc key a (sortByDesc key l)

/-- Descending sortedness on a numeric key (later elements have
keys no larger than earlier ones). -/
def SortedDesc {α : Type} (key : α → Nat) (l : List α) : Prop :=
  l.Pairwise (fun a b => key b ≤ key a)

/-- JS `arr.slice(0, end)` where `end` may be negative:
a negative `end` counts from the end of the array, clamped at `0`. -/
def jsSliceTo {α : Type} (l : List α) (e : Int) : List α :=
  if e < 0 then l.take (l.length - e.natAbs) else l.take e.toNat

/-! ## JS truthiness helpers -/

/-- JS truthiness of a nullable number: `null`/`undefined` and `0` are falsy. -/
def truthyNat : Option Nat → Option Nat
  | none => none
  | some n => if n = 0 then none else some n

/-- JS truthiness of a nullable string: `null`/`undefined` and `""` are falsy. -/
def truthyStr : Option String → Option String
  | none => none
  | some s => if s = "" then none else some s

/-- JS `a || b` on nullable numbers as used in `game.steamAppId || game.appId`. -/
def jsOrNat (a b : Option Nat) : Option Nat :=
  match truthyNat a with
  | some n => some n
  | none => truthyNat b

/-- JS `a || b` on nullable strings. -/
def jsOrStr (a b : Option String) : Option String :=
  match truthyStr a with
  | some s => some s
  | none => truthyStr b

/-! ## Data model: Steam games and library entries -/

/-- `status` values of a `LibraryEntry`
(`'playing' | 'finished' | 'paused' | 'dropped' | 'planning'`). -/
inductive EntryStatus where
  | playing
  | finished
  | paused
  | dropped
  | planning
  deriving DecidableEq, Repr

/-- An upstream owned-game record as returned by `syncSteamLibrary`.
`appId` and `name` are `Option` because partial upstream records may
carry `null` there (the case the sync filter defends against). -/
structure SteamGame where
  appId : Option Nat
  name : Option String
  playtimeTotal : Nat
  playtimeRecent : Nat
  iconUrl : String
  logoUrl : String
  hasStats : Bool
  lastPlayed : Option Nat
  deriving DecidableEq, Repr

/-- The library entry object built by `syncGameLibrary` and stored under
`gameshelf-library-entries-{userId}`. ISO date strings are modelled as
the millisecond timestamps they encode. -/
structure LibraryEntry where
  id : String
  userId : String
  gameId : String
  gameTitle : String
  gameCover : String
  status : EntryStatus
  rating : Option Nat
  notes : String
  createdAt : Nat
  updatedAt : Nat
  steamPlaytimeTotal : Nat
  steamPlaytimeRecent : Nat
  steamLastPlayed : Option Nat
  steamSyncDate : Nat
  isFromSteam : Bool
  steamAppId : Nat
  steamIconUrl : String
  steamHasStats : Bool
  hoursPlayed : Nat
  appid : Nat
  name : String
  header_image : String
  deriving DecidableEq, Repr

/-- The two user-scoped localStorage keys written by `syncGameLibrary`:
`gameshelf-steam-games-{userId}` and `gameshelf-library-entries-{userId}`. -/
structure SyncStore where
  steamGames : List SteamGame
  libraryEntries : List LibraryEntry
  deriving DecidableEq, Repr

def emptySyncStore : SyncStore := { steamGames := [], libraryEntries := [] }

/-- The filter `games.filter(game => game.appId && game.name)` of
`syncGameLibrary`: JS truthiness, so `appId` is kept only when non-null
and nonzero, `name` only when non-null and nonempty. -/
def validSteamGame (g : SteamGame) : Bool :=
  (truthyNat g.appId).isSome && (truthyStr g.name).isSome

/-- The status policy of `syncGameLibrary` (and, textually identical, of
`storeGamesInDatabase`): `planning` unless total playtime is positive,
then `playing`/`paused` split on recent playtime. -/
def deriveStatus (total recentPt : Nat) : EntryStatus :=
  if total > 0 then
    if recentPt > 0 then .playing else .paused
  else .planning

/-- `Math.round(x / 60)` on a nonnegative integer minute count:
JS rounds half away from zero, i.e. `⌊(x + 30) / 60⌋`. -/
def roundDiv60 (minutes : Nat) : Nat := (minutes + 30) / 60

/-- One element of the `validGames.map(steamGame => {...})` body of
`syncGameLibrary` (lines 154-189): a freshly built library entry with
`rating: null`, `notes: ''` and a status derived from playtime.
`now` is the millisecond clock used for the ISO timestamps. -/
def mkLibraryEntry (userId : String) (now : Nat) (g : SteamGame) : LibraryEntry :=
  { id := "steam-" ++ toString (g.appId.getD 0)
    userId := userId
    gameId := "steam-game-" ++ toString (g.appId.getD 0)
    gameTitle := g.name.getD ""
    gameCover := g.logoUrl
    status := deriveStatus g.playtimeTotal g.playtimeRecent
    rating := none
    notes := ""
    createdAt := now
    updatedAt := now
    steamPlaytimeTotal := g.playtimeTotal
    steamPlaytimeRecent := g.playtimeRecent
    steamLastPlayed := g.lastPlayed.map (· * 1000)
    steamSyncDate := now
    isFromSteam := true
    steamAppId := g.appId.getD 0
    steamIconUrl := g.iconUrl
    steamHasStats := g.hasStats
    hoursPlayed := roundDiv60 g.playtimeTotal
    appid := g.appId.getD 0
    name := g.name.getD ""
    header_image := g.logoUrl }

/-- `SteamAmplifyService.syncGameLibrary` after the gateway responded:
`games?` is `none` when the response carried no array (`!games ||
!Array.isArray(games)`), otherwise the raw list. The result pairs the
new localStorage state with the `steamLibrarySynced` event payload
(`some count` when the event was dispatched, `none` on the early
returns). The prior store `prev` is wholesale-replaced; it is a
parameter only to make that visible. -/
def syncGameLibrary (userId : String) (now : Nat)
    (games? : Option (List SteamGame)) (_prev : SyncStore) :
    SyncStore × Option Nat :=
  match games? with
  | none => (emptySyncStore, none)
  | some games =>
    let validGames := games.filter validSteamGame
    if validGames.isEmpty then (emptySyncStore, none)
    else
      ({ steamGames := validGames
         libraryEntries := validGames.map (mkLibraryEntry userId now) },
       some validGames.length)

/-! ## Pure helper: formatPlaytime -/

/-- `SteamAmplifyService.formatPlaytime` (lines 251-264). -/
def formatPlaytime (minutes : Nat) : String :=
  if minutes = 0 then "0 minutes"
  else
    let hours := minutes / 60
    let remainingMinutes := minutes % 60
    if hours = 0 then
      toString remainingMinutes ++ " minute" ++ (if remainingMinutes ≠ 1 then "s" else "")
    else if remainingMinutes = 0 then
      toString hours ++ " hour" ++ (if hours ≠ 1 then "s" else "")
    else
      toString hours ++ "h " ++ toString remainingMinutes ++ "m"

/-! ## Recent activity (`getRecentActivity`) -/

/-- The fields of a stored library entry that `getRecentActivity` reads.
`steamLastPlayed` models the nullable ISO string: `none` is JS `null`
(falsy), `some t` a date string for millisecond time `t`. -/
structure ActivityEntry where
  steamAppId : Nat
  gameTitle : String
  gameCover : String
  steamLastPlayed : Option Nat
  steamPlaytimeTotal : Nat
  steamPlaytimeRecent : Nat
  hoursPlayed : Nat
  rating : Option Nat
  deriving DecidableEq, Repr

inductive ActivityAction where
  | played
  | finished
  deriving DecidableEq, Repr

/-- An item of the activity feed. Fields present on only one of the two
item shapes (`recentHours` for played items, `rating` for finished
ones) are `Option`, absent as `none`. `timestamp` keeps the source
entry's nullable last-played value. -/
structure ActivityItem where
  id : String
  action : ActivityAction
  game : String
  gameCover : String
  timestamp : Option Nat
  hoursPlayed : Nat
  recentHours : Option Nat
  rating : Option Nat
  deriving DecidableEq, Repr

/-- Filter of the recently-played block:
`game.steamLastPlayed && game.steamPlaytimeRecent > 0` (truthiness of
the nullable date string, then positive recent playtime). -/
def playedPred (e : ActivityEntry) : Bool :=
  e.steamLastPlayed.isSome && decide (0 < e.steamPlaytimeRecent)

/-- Filter of the finished block:
`game.steamPlaytimeTotal > 0 && game.steamPlaytimeRecent === 0`. -/
def finishedPred (e : ActivityEntry) : Bool :=
  decide (0 < e.steamPlaytimeTotal) && decide (e.steamPlaytimeRecent = 0)

/-- The `played` activity item built for one entry. -/
def playedItem (e : ActivityEntry) : ActivityItem :=
  { id := "played-" ++ toString e.steamAppId
    action := .played
    game := e.gameTitle
    gameCover := e.gameCover
    timestamp := e.steamLastPlayed
    hoursPlayed := e.hoursPlayed
    recentHours := some (roundDiv60 e.steamPlaytimeRecent)
    rating := none }

/-- The `finished` activity item built for one entry. -/
def finishedItem (e : ActivityEntry) : ActivityItem :=
  { id := "finished-" ++ toString e.steamAppId
    action := .finished
    game := e.gameTitle
    gameCover := e.gameCover
    timestamp := e.steamLastPlayed
    hoursPlayed := e.hoursPlayed
    recentHours := none
    rating := e.rating }

/-- `SteamAmplifyService.getRecentActivity` (lines 279-318): up to 5
recently played entries (nonzero recent playtime, non-null last-played)
plus up to 3 "finished" entries (nonzero total, zero recent; a null
last-played sorts as time `0` via `new Date(b.steamLastPlayed || 0)`),
re-sorted together newest-first and truncated to 10 (an item with a
null timestamp sorts as time `0`, since `new Date(null)` is the epoch). -/
def getRecentActivity (steamGames : List ActivityEntry) : List ActivityItem :=
  if steamGames.isEmpty then []
  else
    let recentlyPlayed :=
      ((sortByDesc (fun e => e.steamLastPlayed.getD 0)
          (steamGames.filter playedPred)).take 5).map playedItem
    let finishedGames :=
      ((sortByDesc (fun e => e.steamLastPlayed.getD 0)
          (steamGames.filter finishedPred)).take 3).map finishedItem
    (sortByDesc (fun it => it.timestamp.getD 0)
        (recentlyPlayed ++ finishedGames)).take 10

/-! ## Recent achievements (`getRecentAchievements`) -/

/-- One achievement from `getPlayerAchievements`. -/
structure SteamAchievement where
  apiName : String
  achieved : Bool
  unlockTime : Nat
  name : String
  description : String
  deriving DecidableEq, Repr

/-- The fields of an input game object that `getRecentAchievements`
reads: it accepts both library-entry and raw-game shapes, coalescing
`steamHasStats || hasStats`, `steamAppId || appId`, `gameTitle || name`
and the cover-image chain with JS truthiness. -/
structure AchGame where
  steamHasStats : Bool
  hasStats : Bool
  steamAppId : Option Nat
  appId : Option Nat
  gameTitle : Option String
  name : Option String
  gameCover : Option String
  header_image : Option String
  logoUrl : Option String
  iconUrl : Option String
  deriving DecidableEq, Repr

/-- The filter selecting games with statistics and a truthy app id:
`(game.steamHasStats || game.hasStats || false) && (game.steamAppId ||
game.appId)`. -/
def achEligible (g : AchGame) : Bool :=
  (g.steamHasStats || g.hasStats) && (jsOrNat g.steamAppId g.appId).isSome

/-- One item of the recent-achievements feed; `unlockedAt` is the
millisecond time `unlockTime * 1000` of the `Date` the code builds. -/
structure RecentAchItem where
  id : String
  game : String
  gameCover : String
  achievement : String
  description : String
  unlockedAt : Nat
  gameAppId : Nat
  deriving DecidableEq, Repr

def mkRecentAchItem (g : AchGame) (gameAppId : Nat) (a : SteamAchievement) :
    RecentAchItem :=
  { id := "achievement-" ++ toString gameAppId ++ "-" ++ a.apiName
    game := (jsOrStr g.gameTitle g.name).getD "Unknown Game"
    gameCover :=
      (jsOrStr g.gameCover (jsOrStr g.header_image (jsOrStr g.logoUrl g.iconUrl))).getD ""
    achievement := a.name
    description := a.description
    unlockedAt := a.unlockTime * 1000
    gameAppId := gameAppId }

/-- The loop body of `getRecentAchievements` for one selected game:
re-coalesce the app id (with the defensive `if (!appId) continue`),
fetch its achievements (`fetch appId = none` models both an
unsuccessful response and a thrown-and-caught error), keep achieved
ones with a nonzero unlock time, sort by unlock time descending and
keep the 3 most recent. -/
def perGameUnlocks (fetch : Nat → Option (List SteamAchievement)) (g : AchGame) :
    List RecentAchItem :=
  match jsOrNat g.steamAppId g.appId with
  | none => []
  | some gameAppId =>
    match fetch gameAppId with
    | none => []
    | some achievements =>
      ((sortByDesc (·.unlockTime)
          (achievements.filter (fun a => a.achieved && decide (0 < a.unlockTime)))).take 3).map
        (mkRecentAchItem g gameAppId)

/-- `SteamAmplifyService.getRecentAchievements` (lines 323-374) with the
per-game network call abstracted into `fetch`: take the first 10
eligible games, collect each one's up-to-3 recent unlocks (a per-game
fetch failure contributes nothing and the loop continues), then sort
everything newest-first and truncate to 15. -/
def getRecentAchievements (fetch : Nat → Option (List SteamAchievement))
    (steamGames : List AchGame) : List RecentAchItem :=
  if steamGames.isEmpty then []
  else
    let gamesWithStats := (steamGames.filter achEligible).take 10
    (sortByDesc (·.unlockedAt) (gamesWithStats.flatMap (perGameUnlocks fetch))).take 15

/-! ## TTL cache (`GameDatabase.cacheData` / `getCachedData`) -/

/-- The `{data, timestamp}` envelope `cacheData` serializes into
localStorage. -/
structure CacheRecord (α : Type) where
  data : α
  timestamp : Nat
  deriving DecidableEq, Repr

/-- The localStorage slice holding one payload type: an association
list from cache keys to records (at most one binding per key is
maintained by `storeSet`). -/
abbrev CacheStore (α : Type) := List (String × CacheRecord α)

/-- `localStorage.getItem` for a cache key. -/
def storeGet {α : Type} (c : CacheStore α) (k : String) : Option (CacheRecord α) :=
  (c.find? (fun p => p.1 == k)).map (·.2)

/-- `localStorage.removeItem`. -/
def eraseKey {α : Type} (k : String) (c : CacheStore α) : CacheStore α :=
  c.filter (fun p => !(p.1 == k))

/-- `localStorage.setItem`: replace any prior binding of the key. -/
def storeSet {α : Type} (c : CacheStore α) (k : String) (r : CacheRecord α) :
    CacheStore α :=
  (k, r) :: eraseKey k c

/-- `GameDatabase.cacheData` (lines 1386-1395): stamp the payload with
the current time and store it under the key. -/
def cacheData {α : Type} (k : String) (v : α) (now : Nat) (c : CacheStore α) :
    CacheStore α :=
  storeSet c k ⟨v, now⟩

/-- The `age > maxAge` staleness test; `maxAge = none` models the
`Infinity` bound used by the trending fallback read. -/
def ageExceeds (age : Nat) : Option Nat → Bool
  | some m => decide (m < age)
  | none => false

/-- `GameDatabase.getCachedData` (lines 1400-1418): a missing key is a
miss; a record older than `maxAge` is *removed from the store* and
reported as a miss; a fresh record's payload is returned. The result
pairs the payload (or `none`) with the store after the call. -/
def getCachedData {α : Type} (k : String) (maxAge : Option Nat) (now : Nat)
    (c : CacheStore α) : Option α × CacheStore α :=
  match storeGet c k with
  | none => (none, c)
  | some r =>
    if ageExceeds (now - r.timestamp) maxAge then (none, eraseKey k c)
    else (some r.data, c)

/-! ## Catalog client (`getTrendingGames`, `searchGames`) -/

def cacheDurationTrending : Nat := 6 * 60 * 60 * 1000
def cacheDurationGameDetails : Nat := 24 * 60 * 60 * 1000
def cacheDurationSearch : Nat := 60 * 60 * 1000
def cacheDurationGenre : Nat := 12 * 60 * 60 * 1000

structure PriceOverview where
  currency : String
  initial : Nat
  final : Nat
  discount_percent : Nat
  initial_formatted : String
  final_formatted : String
  deriving DecidableEq, Repr

structure Platforms where
  windows : Bool
  mac : Bool
  linux : Bool
  deriving DecidableEq, Repr

structure PlayerCount where
  current : Nat
  peak_24h : Nat
  all_time_peak : Nat
  deriving DecidableEq, Repr

/-- The normalized `GameDatabaseEntry` shape of the catalog client. -/
structure GameDatabaseEntry where
  appid : Nat
  name : String
  header_image : String
  capsule_image : String
  short_description : String
  genres : List String
  developers : List String
  publishers : List String
  release_date : String
  price_overview : Option PriceOverview
  metacritic_score : Option Nat
  is_free : Bool
  platforms : Platforms
  categories : List String
  screenshots : List String
  last_updated : Nat
  player_count : Option PlayerCount
  deriving DecidableEq, Repr

/-- A raw game object flowing into `enrichGameData` /
`transformBasicGameInfo` (typed `any` in the source): every field the
transform reads, nullable. `current_players` / `peak_players_24h` /
`all_time_peak` are the raw-shape player figures the basic transform
reads; the `player_count` object a trending entry carries instead is
kept to mirror the object but is not read by the transform. -/
structure RawGameInfo where
  appid : Nat
  name : Option String
  header_image : Option String
  capsule_image : Option String
  short_description : Option String
  genres : Option (List String)
  developers : Option (List String)
  publishers : Option (List String)
  release_date : Option String
  price_overview : Option PriceOverview
  metacritic_score : Option Nat
  is_free : Option Bool
  platforms : Option Platforms
  categories : Option (List String)
  screenshots : Option (List String)
  last_updated : Option Nat
  player_count : Option PlayerCount
  current_players : Option Nat
  peak_players_24h : Option Nat
  all_time_peak : Option Nat
  deriving DecidableEq, Repr

/-- `GameDatabase.transformBasicGameInfo` (lines 1356-1380): JS `||`
defaults on every field (`name || 'Unknown Game'` with `""` falsy,
arrays and strings defaulting to empty), a fresh `last_updated`, and a
player count rebuilt from the raw-shape fields. -/
def transformBasicGameInfo (now : Nat) (g : RawGameInfo) : GameDatabaseEntry :=
  { appid := g.appid
    name := (truthyStr g.name).getD "Unknown Game"
    header_image := (truthyStr g.header_image).getD ""
    capsule_image := (truthyStr g.capsule_image).getD ""
    short_description := (truthyStr g.short_description).getD ""
    genres := g.genres.getD []
    developers := g.developers.getD []
    publishers := g.publishers.getD []
    release_date := (truthyStr g.release_date).getD ""
    price_overview := g.price_overview
    metacritic_score := g.metacritic_score
    is_free := g.is_free.getD false
    platforms := g.platforms.getD ⟨false, false, false⟩
    categories := g.categories.getD []
    screenshots := g.screenshots.getD []
    last_updated := now
    player_count := some ⟨(truthyNat g.current_players).getD 0,
      (truthyNat g.peak_players_24h).getD 0,
      (truthyNat g.all_time_peak).getD 0⟩ }

/-- `GameDatabase.enrichGameData` (lines 1302-1322) with the per-item
`getGameDetails` network call abstracted into `details`: a per-item
detail lookup that fails (returns `null` or throws, both caught) falls
back to the basic transform, and one bad item never aborts the batch. -/
def enrichGameData (details : Nat → Option GameDatabaseEntry) (now : Nat)
    (games : List RawGameInfo) : List GameDatabaseEntry :=
  games.map (fun g =>
    match details g.appid with
    | some d => d
    | none => transformBasicGameInfo now g)

/-- One ranked entry of the Steam charts response
(`data.response.ranks`). -/
structure SteamChartRank where
  appid : Nat
  name : String
  peak_in_game : Option Nat
  deriving DecidableEq, Repr

/-- The partial entry `getTrendingGames` builds from one ranked chart
entry (lines 1142-1162): image URLs synthesized from the app id, empty
metadata, a `player_count` snapshot from `peak_in_game || 0`. -/
def mkTrendingRaw (now : Nat) (g : SteamChartRank) : RawGameInfo :=
  { appid := g.appid
    name := some g.name
    header_image := some ("https://cdn.akamai.steamstatic.com/steam/apps/"
      ++ toString g.appid ++ "/header.jpg")
    capsule_image := some ("https://cdn.akamai.steamstatic.com/steam/apps/"
      ++ toString g.appid ++ "/capsule_184x69.jpg")
    short_description := some ""
    genres := some []
    developers := some []
    publishers := some []
    release_date := some ""
    price_overview := none
    metacritic_score := none
    is_free := some false
    platforms := some ⟨true, false, false⟩
    categories := some []
    screenshots := some []
    last_updated := some now
    player_count := some ⟨(g.peak_in_game).getD 0, (g.peak_in_game).getD 0,
      (g.peak_in_game).getD 0⟩
    current_players := none
    peak_players_24h := none
    all_time_peak := none }

def trendingCacheKey (limit : Int) : String :=
  "gameshelf-trending-games-" ++ toString limit

def searchCacheKey (query : String) (limit page : Int) : String :=
  "gameshelf-search-results-" ++ query ++ "-" ++ toString limit ++ "-" ++ toString page

/-- Result of one `getTrendingGames` call: the returned list, the
trending cache slice after the call, and whether the upstream fetch
was reached (`true` both when it succeeded and when it failed — the
request is issued either way). -/
structure TrendingOutcome where
  games : List GameDatabaseEntry
  cache : CacheStore (List GameDatabaseEntry)
  fetchIssued : Bool
  deriving DecidableEq, Repr

/-- `GameDatabase.getTrendingGames` (lines 1118-1180). `fetchResult`
models the charts request: `.error` covers a network failure, a non-ok
HTTP status, and a response without `response.ranks` (all throw into
the catch). On a TTL-fresh cache hit (and no force) the cached list is
returned with no fetch. Otherwise the fetch runs; on success the first
`limit` ranks (JS `slice`, so a negative limit drops entries from the
end) are normalized, enriched and cached; on failure the catch re-reads
the cache with an `Infinity` bound and falls back to `[]`. Note the
initial TTL-bounded read already *deletes* a stale record, so the
fallback can only see a record when the first read was skipped by
`forceRefresh`. -/
def getTrendingGames (limit : Int) (forceRefresh : Bool)
    (fetchResult : Except Unit (List SteamChartRank))
    (details : Nat → Option GameDatabaseEntry) (now : Nat)
    (c : CacheStore (List GameDatabaseEntry)) : TrendingOutcome :=
  let cacheKey := trendingCacheKey limit
  let firstRead :=
    if forceRefresh then (none, c)
    else getCachedData cacheKey (some cacheDurationTrending) now c
  match firstRead with
  | (some cached, c1) => ⟨cached, c1, false⟩
  | (none, c1) =>
    match fetchResult with
    | .ok ranks =>
      let trendingGames := (jsSliceTo ranks limit).map (mkTrendingRaw now)
      let games := enrichGameData details now trendingGames
      ⟨games, cacheData cacheKey games now c1, true⟩
    | .error _ =>
      match getCachedData cacheKey none now c1 with
      | (some cached, c2) => ⟨cached, c2, true⟩
      | (none, c2) => ⟨[], c2, true⟩

/-- The `{games, total, page, limit}` result shape of `searchGames`. -/
structure GameSearchResult where
  games : List GameDatabaseEntry
  total : Nat
  page : Int
  limit : Int
  deriving DecidableEq, Repr

/-- The usable part of a store-search response (`data.items`,
`data.total`); a response without `items` throws into the catch and is
an `.error` fetch outcome. -/
structure StoreSearchData where
  items : List RawGameInfo
  total : Nat
  deriving DecidableEq, Repr

/-- Result of one `searchGames` call. -/
structure SearchOutcome where
  result : GameSearchResult
  cache : CacheStore GameSearchResult
  fetchIssued : Bool
  deriving DecidableEq, Repr

/-- `GameDatabase.searchGames` (lines 1185-1227): a TTL-fresh cached
result is returned without fetching; otherwise the store-search request
is issued with `count=limit`, its items enriched and the result cached;
any failure yields the empty result `{games: [], total: 0, page,
limit}` without touching the cache further. -/
def searchGames (query : String) (limit page : Int)
    (fetchResult : Except Unit StoreSearchData)
    (details : Nat → Option GameDatabaseEntry) (now : Nat)
    (c : CacheStore GameSearchResult) : SearchOutcome :=
  let cacheKey := searchCacheKey query limit page
  match getCachedData cacheKey (some cacheDurationSearch) now c with
  | (some cached, c1) => ⟨cached, c1, false⟩
  | (none, c1) =>
    match fetchResult with
    | .ok d =>
      let games := enrichGameData details now d.items
      let result : GameSearchResult := ⟨games, d.total, page, limit⟩
      ⟨result, cacheData cacheKey result now c1, true⟩
    | .error _ => ⟨⟨[], 0, page, limit⟩, c1, true⟩


/-! ## Concrete inputs used by counterexamples and witnesses -/

def cexGameA : SteamGame :=
  { appId := some 10, name := some "A", playtimeTotal := 120, playtimeRecent := 30,
    iconUrl := "iconA", logoUrl := "logoA", hasStats := true, lastPlayed := some 111 }

def cexGameB : SteamGame :=
  { appId := some 20, name := some "B", playtimeTotal := 0, playtimeRecent := 0,
    iconUrl := "iconB", logoUrl := "logoB", hasStats := false, lastPlayed := none }

/-- A partial upstream record whose app id is present but `0` (falsy in JS). -/
def cexZeroIdGame : SteamGame :=
  { appId := some 0, name := some "Zero", playtimeTotal := 10, playtimeRecent := 5,
    iconUrl := "i", logoUrl := "l", hasStats := false, lastPlayed := none }

/-- A partial upstream record with a `null` app id. -/
def cexNullIdGame : SteamGame :=
  { appId := none, name := some "NoId", playtimeTotal := 10, playtimeRecent := 5,
    iconUrl := "i", logoUrl := "l", hasStats := false, lastPlayed := none }

/-- Store state after a first sync of `[cexGameA]` followed by user edits:
a rating, notes, and a manually chosen `finished` status. -/
def cexPreStore : SyncStore :=
  { steamGames := [cexGameA]
    libraryEntries := [{ mkLibraryEntry "u1" 0 cexGameA with
      rating := some 5, notes := "great", status := .finished }] }

def cexCatalogEntry : GameDatabaseEntry :=
  { appid := 570, name := "Dota", header_image := "h", capsule_image := "c",
    short_description := "", genres := [], developers := [], publishers := [],
    release_date := "", price_overview := none, metacritic_score := none,
    is_free := true, platforms := { windows := true, mac := false, linux := false },
    categories := [], screenshots := [], last_updated := 0, player_count := none }

/-- Trending cache holding one record, captured at time `0`, under the
key for `limit = 10`. -/
def cexTrendingCache : CacheStore (List GameDatabaseEntry) :=
  cacheData (trendingCacheKey 10) [cexCatalogEntry] 0 []

def cexRank1 : SteamChartRank := { appid := 730, name := "CS2", peak_in_game := some 1000 }

def cexRank2 : SteamChartRank := { appid := 570, name := "Dota", peak_in_game := none }

def cexRawItem : RawGameInfo :=
  { appid := 42, name := some "Item", header_image := none, capsule_image := none,
    short_description := none, genres := none, developers := none, publishers := none,
    release_date := none, price_overview := none, metacritic_score := none,
    is_free := none, platforms := none, categories := none, screenshots := none,
    last_updated := none, player_count := none, current_players := none,
    peak_players_24h := none, all_time_peak := none }

/-- An eligible input game for the achievements feed, app id `42`. -/
def cexAchGame : AchGame :=
  { steamHasStats := true, hasStats := false, steamAppId := some 42, appId := none,
    gameTitle := some "G", name := none, gameCover := some "cover", header_image := none,
    logoUrl := none, iconUrl := none }

/-- An achievement fetch oracle: app id `42` answers with three
achievements (one achieved at time 100, one unachieved, one achieved at
time 0), every other id fails. -/
def cexFetch : Nat → Option (List SteamAchievement) :=
  fun i =>
    if i = 42 then
      some [{ apiName := "a1", achieved := true, unlockTime := 100, name := "First",
              description := "d1" },
            { apiName := "a2", achieved := false, unlockTime := 200, name := "Second",
              description := "d2" },
            { apiName := "a3", achieved := true, unlockTime := 0, name := "Zero",
              description := "d3" }]
    else none

/-- A library entry with a last-played date and recent playtime. -/
def cexActPlayed : ActivityEntry :=
  { steamAppId := 10, gameTitle := "A", gameCover := "cA", steamLastPlayed := some 500,
    steamPlaytimeTotal := 120, steamPlaytimeRecent := 30, hoursPlayed := 2,
    rating := none }

/-- A library entry with nonzero recent playtime but a `null`
last-played date. -/
def cexActNoLastPlayed : ActivityEntry :=
  { steamAppId := 20, gameTitle := "B", gameCover := "cB", steamLastPlayed := none,
    steamPlaytimeTotal := 60, steamPlaytimeRecent := 15, hoursPlayed := 1,
    rating := none }

/-- A library entry qualifying for the finished block. -/
def cexActFinished : ActivityEntry :=
  { steamAppId := 30, gameTitle := "C", gameCover := "cC", steamLastPlayed := some 200,
    steamPlaytimeTotal := 300, steamPlaytimeRecent := 0, hoursPlayed := 5,
    rating := some 4 }

/-! ## Helper lemmas: sorting -/

theorem mem_insertByDesc {α : Type} (key : α → Nat) (a x : α) (l : List α) :
    x ∈ insertByDesc key a l ↔ x = a ∨ x ∈ l := by
  induction l with
  | nil => simp [insertByDesc]
  | cons b t ih =>
    simp only [insertByDesc]
    split
    · simp
    · simp only [List.mem_cons, ih]
      tauto

theorem length_insertByDesc {α : Type} (key : α → Nat) (a : α) (l : List α) :
    (insertByDesc key a l).length = l.length + 1 := by
  induction l with
  | nil => rfl
  | cons b t ih =>
    simp only [insertByDesc]
    split
    · simp
    · simp [ih]

theorem mem_sortByDesc {α : Type} (key : α → Nat) (x : α) (l : List α) :
    x ∈ sortByDesc key l ↔ x ∈ l := by
  induction l with
  | nil => simp [sortByDesc]
  | cons a t ih => simp [sortByDesc, mem_insertByDesc, ih]

theorem length_sortByDesc {α : Type} (key : α → Nat) (l : List α) :
    (sortByDesc key l).length = l.length := by
  induction l with
  | nil => rfl
  | cons a t ih => simp [sortByDesc, length_insertByDesc, ih]

theorem sortedDesc_insertByDesc {α : Type} (key : α → Nat) (a : α) (l : List α)
    (h : SortedDesc key l) : SortedDesc key (insertByDesc key a l) := by
  induction l with
  | nil => simp [insertByDesc, SortedDesc]
  | cons b t ih =>
    simp only [insertByDesc]
    rcases List.pairwise_cons.mp h with ⟨hb, ht⟩
    split
    · rename_i hba
      refine List.pairwise_cons.mpr ⟨?_, h⟩
      intro x hx
      rcases List.mem_cons.mp hx with rfl | hx
      · exact hba
      · exact le_trans (hb x hx) hba
    · rename_i hba
      refine List.pairwise_cons.mpr ⟨?_, ih ht⟩
      intro x hx
      rcases (mem_insertByDesc key a x t).mp hx with rfl | hx
      · omega
      · exact hb x hx

theorem sortedDesc_sortByDesc {α : Type} (key : α → Nat) (l : List α) :
    SortedDesc key (sortByDesc key l) := by
  induction l with
  | nil => simp [sortByDesc, SortedDesc]
  | cons a t ih => exact sortedDesc_insertByDesc key a _ ih

theorem sortedDesc_take {α : Type} (key : α → Nat) (l : List α) (n : Nat)
    (h : SortedDesc key l) : SortedDesc key (l.take n) :=
  List.Pairwise.sublist (List.take_sublist n l) h

theorem mem_take_sortByDesc {α : Type} (key : α → Nat) (x : α) (l : List α) (n : Nat)
    (h : x ∈ (sortByDesc key l).take n) : x ∈ l :=
  (mem_sortByDesc key x l).mp (List.take_subset n _ h)

/-! ## Helper lemmas: cache store -/

theorem storeGet_storeSet_self {α : Type} (c : CacheStore α) (k : String)
    (r : CacheRecord α) : storeGet (storeSet c k r) k = some r := by
  simp [storeGet, storeSet, List.find?]

theorem storeGet_eraseKey_self {α : Type} (k : String) (c : CacheStore α) :
    storeGet (eraseKey k c) k = none := by
  induction c with
  | nil => rfl
  | cons p t ih =>
    simp only [eraseKey, List.filter] at *
    by_cases hk : p.1 == k
    · simp [hk, ih]
    · simp [storeGet, List.find?, hk, ih]

/-! ## C5: stale cache reads evict the record -/

/-- C5 counterexample: `set("k", 7)` at time 0 then `get("k", ttl=5)` at
time 10 reports the record absent, but — contrary to the claim — the
stored record is not left in place: the store after the get is empty. -/
theorem getCachedData_stale_deletes_cex :
    storeGet (cacheData "k" (7 : Nat) 0 []) "k" = some ⟨7, 0⟩ ∧
    (getCachedData "k" (some 5) 10 (cacheData "k" (7 : Nat) 0 [])).1 = none ∧
    (getCachedData "k" (some 5) 10 (cacheData "k" (7 : Nat) 0 [])).2 = [] := by
  decide

/-- C5 amended: a cache get whose record is older than the given TTL
reports the record absent and *removes the stale record from the
store* (`getCachedData` calls `localStorage.removeItem` on a stale
record); after the get the key is gone. -/
theorem getCachedData_stale_evicts {α : Type} (k : String) (ttl now : Nat)
    (c : CacheStore α) (r : CacheRecord α)
    (hget : storeGet c k = some r) (hstale : ttl < now - r.timestamp) :
    getCachedData k (some ttl) now c = (none, eraseKey k c) ∧
    storeGet (getCachedData k (some ttl) now c).2 k = none := by
  unfold getCachedData
  rw [hget]
  simp [ageExceeds, hstale, storeGet_eraseKey_self]

/-- C5 witness: the amended theorem applied to a concrete stale record. -/
theorem getCachedData_stale_evicts_witness :
    getCachedData "w" (some 3) 100 (cacheData "w" (9 : Nat) 0 [])
      = (none, eraseKey "w" (cacheData "w" (9 : Nat) 0 [])) ∧
    storeGet (getCachedData "w" (some 3) 100 (cacheData "w" (9 : Nat) 0 [])).2 "w"
      = none :=
  getCachedData_stale_evicts "w" 3 100 (cacheData "w" (9 : Nat) 0 []) ⟨9, 0⟩
    (by decide) (by decide)

/-! ## C6: cache round trip -/

/-- C6: `set(k,v)` immediately followed by `get(k, ttl)` with `ttl > 0`
returns `v` unchanged, and once the elapsed time since the set exceeds
`ttl`, `get(k, ttl)` reports the record absent. -/
theorem cacheData_getCachedData_roundtrip {α : Type} (k : String) (v : α)
    (now ttl now2 : Nat) (c : CacheStore α) (_httl : 0 < ttl) :
    (getCachedData k (some ttl) now (cacheData k v now c)).1 = some v ∧
    (ttl < now2 - now →
      (getCachedData k (some ttl) now2 (cacheData k v now c)).1 = none) := by
  constructor
  · unfold getCachedData cacheData
    rw [storeGet_storeSet_self]
    simp [ageExceeds]
  · intro h
    unfold getCachedData cacheData
    rw [storeGet_storeSet_self]
    simp [ageExceeds, h]

/-- C6 witness: the round trip at a concrete key, value and clock. -/
theorem cacheData_getCachedData_roundtrip_witness :
    (getCachedData "k" (some 60) 100 (cacheData "k" (3 : Nat) 100 [])).1 = some 3 ∧
    (getCachedData "k" (some 60) 200 (cacheData "k" (3 : Nat) 100 [])).1 = none :=
  ⟨(cacheData_getCachedData_roundtrip "k" 3 100 60 200 [] (by decide)).1,
   (cacheData_getCachedData_roundtrip "k" 3 100 60 200 [] (by decide)).2 (by decide)⟩

/-! ## C9: formatPlaytime -/

/-- C9: `formatPlaytime` maps minute counts to display strings with
correct singular/plural: the five concrete examples of the spec, and in
general `"X minutes"`/`"1 minute"` under an hour, `"X hours"`/`"1
hour"` on an exact hour multiple, and `"Xh Ym"` otherwise. -/
theorem formatPlaytime_spec :
    formatPlaytime 0 = "0 minutes" ∧
    formatPlaytime 59 = "59 minutes" ∧
    formatPlaytime 60 = "1 hour" ∧
    formatPlaytime 90 = "1h 30m" ∧
    formatPlaytime 125 = "2h 5m" ∧
    (∀ m : Nat, 0 < m → m < 60 →
      formatPlaytime m = toString m ++ (if m = 1 then " minute" else " minutes")) ∧
    (∀ m : Nat, 60 ≤ m → m % 60 = 0 →
      formatPlaytime m = toString (m / 60) ++ (if m / 60 = 1 then " hour" else " hours")) ∧
    (∀ m : Nat, 60 ≤ m → m % 60 ≠ 0 →
      formatPlaytime m = toString (m / 60) ++ "h " ++ toString (m % 60) ++ "m") := by
  refine ⟨by decide, by decide, by decide, by decide, by decide, ?_, ?_, ?_⟩
  · intro m h0 h60
    have hne : ¬(m = 0) := by omega
    have hdiv : m / 60 = 0 := Nat.div_eq_of_lt h60
    have hmod : m % 60 = m := Nat.mod_eq_of_lt h60
    simp only [formatPlaytime, if_neg hne, hdiv, hmod, if_pos rfl]
    by_cases hm : m = 1
    · simp [hm]
    · simp only [if_neg hm, if_pos hm]
      rw [String.append_assoc]
      simp [hm]
  · intro m h60 hmod
    have hne : ¬(m = 0) := by omega
    have hdivne : ¬(m / 60 = 0) := by
      rw [Nat.div_eq_zero_iff (by norm_num)]
      omega
    simp only [formatPlaytime, if_neg hne, if_neg hdivne, hmod, if_pos rfl]
    by_cases hh : m / 60 = 1
    · simp [hh]
    · simp only [if_neg hh, if_pos hh]
      rw [String.append_assoc]
      simp [hh]
  · intro m h60 hmod
    have hne : ¬(m = 0) := by omega
    have hdivne : ¬(m / 60 = 0) := by
      rw [Nat.div_eq_zero_iff (by norm_num)]
      omega
    simp only [formatPlaytime, if_neg hne, if_neg hdivne, if_neg hmod]

/-- C9 witness: the general branches of the spec applied at concrete
minute counts. -/
theorem formatPlaytime_spec_witness :
    formatPlaytime 45 = "45 minutes" ∧ formatPlaytime 180 = "3 hours" ∧
    formatPlaytime 61 = "1h 1m" :=
  ⟨(formatPlaytime_spec.2.2.2.2.2.1 45 (by decide) (by decide)).trans (by decide),
   (formatPlaytime_spec.2.2.2.2.2.2.1 180 (by decide) (by decide)).trans (by decide),
   (formatPlaytime_spec.2.2.2.2.2.2.2 61 (by decide) (by decide)).trans (by decide)⟩

/-! ## C1-C3: syncGameLibrary -/

/-- `syncGameLibrary` on a present games array, written out as one
equation (the early empty return versus the map over the valid games). -/
theorem syncGameLibrary_some_eq (userId : String) (now : Nat)
    (games : List SteamGame) (pre : SyncStore) :
    syncGameLibrary userId now (some games) pre
      = (if (games.filter validSteamGame).isEmpty then (emptySyncStore, none)
         else ({ steamGames := games.filter validSteamGame
                 libraryEntries :=
                   (games.filter validSteamGame).map (mkLibraryEntry userId now) },
               some (games.filter validSteamGame).length)) := rfl

/-- C1 counterexample: after a first sync of one game, the user sets a
rating, notes and a manual `finished` status; a second sync with the
identical upstream list rebuilds the entry with `rating = null`,
`notes = ''` and a re-derived `playing` status, so none of the three is
preserved. -/
theorem syncGameLibrary_clobbers_curation_cex :
    (syncGameLibrary "u1" 0 (some [cexGameA]) emptySyncStore).1.libraryEntries
      = [mkLibraryEntry "u1" 0 cexGameA] ∧
    cexPreStore.libraryEntries.map (fun e => (e.rating, e.notes, e.status))
      = [(some 5, "great", EntryStatus.finished)] ∧
    (syncGameLibrary "u1" 1 (some [cexGameA]) cexPreStore).1.libraryEntries.map
        (fun e => (e.rating, e.notes, e.status))
      = [(none, "", EntryStatus.playing)] := by
  decide

/-- C1 amended: running `syncGameLibrary` twice with identical upstream
data produces no duplicate entries (at most one per game identifier,
when the valid games carry pairwise distinct app ids), because each run
wholesale-replaces the stored entry list with one freshly built entry
per valid game; but it does **not** preserve user curation: every entry
of the second run has `rating = null`, empty notes, and a status
re-derived from playtime, regardless of what the store held before. -/
theorem syncGameLibrary_idempotent_but_resets (userId : String) (now1 now2 : Nat)
    (games : List SteamGame) (pre1 pre2 : SyncStore)
    (hnodup : ((games.filter validSteamGame).map (fun g => g.appId.getD 0)).Nodup) :
    (syncGameLibrary userId now2 (some games) pre2
      = syncGameLibrary userId now2 (some games)
          (syncGameLibrary userId now1 (some games) pre1).1) ∧
    ((syncGameLibrary userId now2 (some games) pre2).1.libraryEntries
      = (games.filter validSteamGame).map (mkLibraryEntry userId now2)) ∧
    ((syncGameLibrary userId now2 (some games) pre2).1.libraryEntries.map
        (·.steamAppId)).Nodup ∧
    (syncGameLibrary userId now2 (some games) pre2).1.libraryEntries.Nodup ∧
    (∀ e ∈ (syncGameLibrary userId now2 (some games) pre2).1.libraryEntries,
      e.rating = none ∧ e.notes = "" ∧
        e.status = deriveStatus e.steamPlaytimeTotal e.steamPlaytimeRecent) := by
  have hentries :
      (syncGameLibrary userId now2 (some games) pre2).1.libraryEntries
        = (games.filter validSteamGame).map (mkLibraryEntry userId now2) := by
    rw [syncGameLibrary_some_eq]
    by_cases hemp : (games.filter validSteamGame).isEmpty
    · simp [hemp, List.isEmpty_iff.mp hemp, emptySyncStore]
    · simp [hemp]
  have happ :
      (syncGameLibrary userId now2 (some games) pre2).1.libraryEntries.map
          (·.steamAppId)
        = (games.filter validSteamGame).map (fun g => g.appId.getD 0) := by
    rw [hentries, List.map_map]
    rfl
  refine ⟨rfl, hentries, ?_, ?_, ?_⟩
  · rw [happ]
    exact hnodup
  · exact List.Nodup.of_map _ (by rw [happ]; exact hnodup)
  · intro e he
    rw [hentries] at he
    rcases List.mem_map.mp he with ⟨g, _, rfl⟩
    exact ⟨rfl, rfl, rfl⟩

/-- C1 witness: the amended theorem applied to a two-game upstream
list with distinct app ids. -/
theorem syncGameLibrary_idempotent_but_resets_witness :
    ((syncGameLibrary "u1" 5 (some [cexGameA, cexGameB]) cexPreStore).1.libraryEntries.map
        (·.steamAppId)).Nodup ∧
    ((syncGameLibrary "u1" 5 (some [cexGameA, cexGameB]) cexPreStore).1.libraryEntries
      = [mkLibraryEntry "u1" 5 cexGameA, mkLibraryEntry "u1" 5 cexGameB]) := by
  have h := syncGameLibrary_idempotent_but_resets "u1" 0 5 [cexGameA, cexGameB]
    emptySyncStore cexPreStore (by decide)
  exact ⟨h.2.2.1, h.2.1.trans (by decide)⟩

/-- Case analysis of the playtime-to-status policy. -/
theorem deriveStatus_cases (total recentPt : Nat) :
    (total = 0 → deriveStatus total recentPt = .planning) ∧
    (0 < total → 0 < recentPt → deriveStatus total recentPt = .playing) ∧
    (0 < total → recentPt = 0 → deriveStatus total recentPt = .paused) ∧
    deriveStatus total recentPt ≠ .finished ∧ deriveStatus total recentPt ≠ .dropped := by
  unfold deriveStatus
  by_cases h1 : 0 < total
  · by_cases h2 : 0 < recentPt
    · rw [if_pos h1, if_pos h2]
      exact ⟨fun h => absurd h (by omega), fun _ _ => rfl,
             fun _ h => absurd h (by omega), by decide, by decide⟩
    · rw [if_pos h1, if_neg h2]
      exact ⟨fun h => absurd h (by omega), fun _ h => absurd h h2,
             fun _ _ => rfl, by decide, by decide⟩
  · rw [if_neg h1]
    exact ⟨fun _ => rfl, fun h => absurd h h1, fun h => absurd h h1,
           by decide, by decide⟩

/-- C2: every library entry created by `syncGameLibrary` has exactly
the status dictated by the playtime policy — `planning` when total
playtime is `0`, `playing` when total and recent are both positive,
`paused` when total is positive and recent is `0` — for all magnitudes,
and `finished`/`dropped` are never assigned by sync. -/
theorem syncGameLibrary_status_policy (userId : String) (now : Nat)
    (games? : Option (List SteamGame)) (pre : SyncStore) (e : LibraryEntry)
    (he : e ∈ (syncGameLibrary userId now games? pre).1.libraryEntries) :
    (e.steamPlaytimeTotal = 0 → e.status = .planning) ∧
    (0 < e.steamPlaytimeTotal → 0 < e.steamPlaytimeRecent → e.status = .playing) ∧
    (0 < e.steamPlaytimeTotal → e.steamPlaytimeRecent = 0 → e.status = .paused) ∧
    e.status ≠ .finished ∧ e.status ≠ .dropped := by
  match games? with
  | none => simp [syncGameLibrary, emptySyncStore] at he
  | some games =>
    rw [syncGameLibrary_some_eq] at he
    by_cases hemp : (games.filter validSteamGame).isEmpty
    · simp [hemp, emptySyncStore] at he
    · simp only [hemp, if_false] at he
      rcases List.mem_map.mp he with ⟨g, _, rfl⟩
      exact deriveStatus_cases g.playtimeTotal g.playtimeRecent

/-- C2 witness: the policy at an entry with positive total and recent
playtime, created by a concrete sync run. -/
theorem syncGameLibrary_status_policy_witness :
    (mkLibraryEntry "u1" 0 cexGameA).status = EntryStatus.playing := by
  have h := syncGameLibrary_status_policy "u1" 0 (some [cexGameA]) emptySyncStore
    (mkLibraryEntry "u1" 0 cexGameA) (by decide)
  exact h.2.1 (by decide) (by decide)

/-- C3 counterexample: an upstream record with `appId: 0` and a
nonempty name is *not* missing a game identifier or a name, yet
`syncGameLibrary` drops it (JS truthiness treats `0` as absent), so the
claim's "drops exactly those entries missing a game identifier or a
name" fails: one valid-per-the-claim game yields zero persisted
entries. -/
theorem syncGameLibrary_drops_zero_appid_cex :
    cexZeroIdGame.appId.isSome = true ∧ cexZeroIdGame.name.isSome = true ∧
    ([cexZeroIdGame].filter (fun g => g.appId.isSome && g.name.isSome)).length = 1 ∧
    (syncGameLibrary "u1" 0 (some [cexZeroIdGame]) emptySyncStore).1.libraryEntries.length
      = 0 := by
  decide

/-- C3 amended: `syncGameLibrary` drops exactly those entries whose
game identifier is `null` or `0` or whose name is `null` or empty (the
JS-truthy filter `game.appId && game.name`), persists one LibraryEntry
per remaining game, and when no valid entries remain (or the games
array is absent) writes empty collections and returns without error. -/
theorem syncGameLibrary_filter_spec (userId : String) (now : Nat)
    (games : List SteamGame) (pre : SyncStore) :
    ((syncGameLibrary userId now (some games) pre).1.steamGames
      = games.filter validSteamGame) ∧
    ((syncGameLibrary userId now (some games) pre).1.libraryEntries
      = (games.filter validSteamGame).map (mkLibraryEntry userId now)) ∧
    (games.filter validSteamGame = [] →
      syncGameLibrary userId now (some games) pre = (emptySyncStore, none)) ∧
    (syncGameLibrary userId now none pre = (emptySyncStore, none)) ∧
    (∀ g : SteamGame, validSteamGame g = true ↔
      ((∃ n, g.appId = some n ∧ n ≠ 0) ∧ (∃ s, g.name = some s ∧ s ≠ ""))) := by
  refine ⟨?_, ?_, ?_, rfl, ?_⟩
  · rw [syncGameLibrary_some_eq]
    by_cases hemp : (games.filter validSteamGame).isEmpty
    · simp [hemp, List.isEmpty_iff.mp hemp, emptySyncStore]
    · simp [hemp]
  · rw [syncGameLibrary_some_eq]
    by_cases hemp : (games.filter validSteamGame).isEmpty
    · simp [hemp, List.isEmpty_iff.mp hemp, emptySyncStore]
    · simp [hemp]
  · intro hnil
    rw [syncGameLibrary_some_eq, hnil]
    simp
  · intro g
    unfold validSteamGame truthyNat truthyStr
    rcases g.appId with _ | n <;> rcases g.name with _ | s
    · simp
    · simp
    · simp
    · by_cases hn : n = 0 <;> by_cases hs : s = "" <;> simp [hn, hs]

/-- C3 witness: the spec scenario — one entry with a `null` app id plus
one valid entry yields exactly one persisted LibraryEntry. -/
theorem syncGameLibrary_filter_spec_witness :
    (syncGameLibrary "u1" 0 (some [cexNullIdGame, cexGameA]) emptySyncStore).1.libraryEntries
      = [mkLibraryEntry "u1" 0 cexGameA] := by
  have h := (syncGameLibrary_filter_spec "u1" 0 [cexNullIdGame, cexGameA] emptySyncStore).2.1
  exact h.trans (by decide)

/-! ## C4: getTrendingGames failure fallback -/

/-- C4 counterexample: a trending record cached at time 0 exists when
`getTrendingGames(10)` is called at `6h + 1ms` with a failing fetch and
`forceRefresh = false`; the claim says the (stale) cached value is
returned, but the initial TTL-bounded read has already evicted the
record, so the call returns `[]` — not the non-empty cached list. -/
theorem getTrendingGames_stale_fallback_cex :
    storeGet cexTrendingCache (trendingCacheKey 10) = some ⟨[cexCatalogEntry], 0⟩ ∧
    (getTrendingGames 10 false (.error ()) (fun _ => none) 21600001
        cexTrendingCache).games = [] ∧
    [cexCatalogEntry] ≠ ([] : List GameDatabaseEntry) := by
  decide

/-- C4 amended: on a fetch/parse failure `getTrendingGames` never
propagates an exception (the embedding is total and every failure
branch is specified), and the stale-cache fallback returns the cached
value only when the initial TTL-bounded read did not already evict it:
with `forceRefresh = true` any cached record, regardless of age, is
returned; with `forceRefresh = false` a record older than the 6-hour
TTL has been deleted by the initial read and the call returns `[]`;
with no record at all it returns `[]`. (A TTL-fresh record is returned
from cache without any fetch.) -/
theorem getTrendingGames_failure_fallback (limit : Int)
    (details : Nat → Option GameDatabaseEntry) (now : Nat)
    (c : CacheStore (List GameDatabaseEntry)) :
    (∀ r : CacheRecord (List GameDatabaseEntry),
      storeGet c (trendingCacheKey limit) = some r →
      (getTrendingGames limit true (.error ()) details now c).games = r.data) ∧
    (storeGet c (trendingCacheKey limit) = none →
      ∀ fr : Bool, (getTrendingGames limit fr (.error ()) details now c).games = []) ∧
    (∀ r : CacheRecord (List GameDatabaseEntry),
      storeGet c (trendingCacheKey limit) = some r →
      cacheDurationTrending < now - r.timestamp →
      (getTrendingGames limit false (.error ()) details now c).games = []) ∧
    (∀ (r : CacheRecord (List GameDatabaseEntry))
        (fetchRes : Except Unit (List SteamChartRank)),
      storeGet c (trendingCacheKey limit) = some r →
      now - r.timestamp ≤ cacheDurationTrending →
      getTrendingGames limit false fetchRes details now c = ⟨r.data, c, false⟩) := by
  refine ⟨?_, ?_, ?_, ?_⟩
  · intro r hr
    simp [getTrendingGames, getCachedData, hr, ageExceeds]
  · intro hnone fr
    cases fr <;> simp [getTrendingGames, getCachedData, hnone]
  · intro r hr hstale
    have hb : ageExceeds (now - r.timestamp) (some cacheDurationTrending) = true := by
      simp only [ageExceeds, decide_eq_true_eq]
      omega
    simp [getTrendingGames, getCachedData, hr, hb, storeGet_eraseKey_self, ageExceeds,
      hstale]
  · intro r fetchRes hr hfresh
    have hb : ageExceeds (now - r.timestamp) (some cacheDurationTrending) = false := by
      simp only [ageExceeds, decide_eq_false_iff_not]
      omega
    simp [getTrendingGames, getCachedData, hr, hb]

/-- C4 witness: the amended theorem at a concrete cache — a force
refresh with a failing fetch falls back to the (stale-by-TTL) record,
and a fresh record is served from cache without fetching. -/
theorem getTrendingGames_failure_fallback_witness :
    (getTrendingGames 10 true (.error ()) (fun _ => none) 21600001
        cexTrendingCache).games = [cexCatalogEntry] ∧
    getTrendingGames 10 false (.ok [cexRank1]) (fun _ => none) 100 cexTrendingCache
      = ⟨[cexCatalogEntry], cexTrendingCache, false⟩ := by
  have h := getTrendingGames_failure_fallback 10 (fun _ => none) 21600001 cexTrendingCache
  have h2 := getTrendingGames_failure_fallback 10 (fun _ => none) 100 cexTrendingCache
  exact ⟨h.1 ⟨[cexCatalogEntry], 0⟩ (by decide),
         h2.2.2.2 ⟨[cexCatalogEntry], 0⟩ (.ok [cexRank1]) (by decide) (by decide)⟩

/-! ## C8: negative or zero limit -/

/-- C8 counterexample: with an empty cache, `getTrendingGames(0)` still
issues the upstream fetch (the claim demands no network call at all),
and `getTrendingGames(-1)` over a two-entry ranks response returns a
*non-empty* list (JS `slice(0, -1)` keeps all but the last element)
rather than the claimed empty result; `searchGames` with `limit = 0`
also issues its fetch. -/
theorem catalog_nonpositive_limit_cex :
    (getTrendingGames 0 false (.ok [cexRank1]) (fun _ => none) 5 []).fetchIssued
      = true ∧
    (getTrendingGames (-1) false (.ok [cexRank1, cexRank2]) (fun _ => none) 5
        []).games.length = 1 ∧
    (searchGames "q" 0 1 (.ok ⟨[cexRawItem], 3⟩) (fun _ => none) 5 []).fetchIssued
      = true := by
  decide

/-- C8 amended: a negative or zero `limit` does not throw (the
embedding is total: every failure path of the code is
caught and specified), but the catalog operations still issue their
upstream fetch whenever the cache misses; `getTrendingGames` with
`limit = 0` and a successful fetch returns an empty list, while a
negative limit returns the fetched ranks minus the last `|limit|`
entries (possibly non-empty), and `searchGames` passes the limit
through to the upstream request. -/
theorem catalog_nonpositive_limit_fetches (limit page : Int) (q : String)
    (fr : Except Unit (List SteamChartRank)) (frs : Except Unit StoreSearchData)
    (details : Nat → Option GameDatabaseEntry) (now : Nat)
    (_hlim : limit ≤ 0) :
    (getTrendingGames limit false fr details now []).fetchIssued = true ∧
    (∀ ranks : List SteamChartRank,
      (getTrendingGames 0 false (.ok ranks) details now []).games = []) ∧
    (∀ ranks : List SteamChartRank, limit < 0 →
      (getTrendingGames limit false (.ok ranks) details now []).games.length
        = ranks.length - limit.natAbs) ∧
    (searchGames q limit page frs details now []).fetchIssued = true := by
  refine ⟨?_, ?_, ?_, ?_⟩
  · unfold getTrendingGames getCachedData storeGet
    cases fr <;> simp
  · intro ranks
    unfold getTrendingGames getCachedData storeGet
    simp [jsSliceTo, enrichGameData]
  · intro ranks hneg
    unfold getTrendingGames getCachedData storeGet
    simp only [List.find?_nil, Option.map_none, if_neg (by omega : ¬ (0:Int) < 0)]
    simp [jsSliceTo, hneg, enrichGameData, length_sortByDesc]
  · unfold searchGames getCachedData storeGet
    cases frs <;> simp

/-! ## C10: getRecentActivity and null last-played timestamps -/

/-- Every item of the activity feed comes from an entry passing one of
the two filters, as the corresponding item shape. -/
theorem mem_getRecentActivity (es : List ActivityEntry) (it : ActivityItem)
    (h : it ∈ getRecentActivity es) :
    (∃ e ∈ es, playedPred e = true ∧ it = playedItem e) ∨
    (∃ e ∈ es, finishedPred e = true ∧ it = finishedItem e) := by
  unfold getRecentActivity at h
  by_cases hemp : es.isEmpty
  · simp [hemp] at h
  · simp only [hemp, Bool.false_eq_true, if_false] at h
    have h2 := mem_take_sortByDesc _ _ _ _ h
    rcases List.mem_append.mp h2 with hl | hr
    · rcases List.mem_map.mp hl with ⟨e, he, rfl⟩
      have he2 := mem_take_sortByDesc _ _ _ _ he
      rcases List.mem_filter.mp he2 with ⟨hes, hpred⟩
      exact Or.inl ⟨e, hes, hpred, rfl⟩
    · rcases List.mem_map.mp hr with ⟨e, he, rfl⟩
      have he2 := mem_take_sortByDesc _ _ _ _ he
      rcases List.mem_filter.mp he2 with ⟨hes, hpred⟩
      exact Or.inr ⟨e, hes, hpred, rfl⟩

/-- C10: `getRecentActivity` never emits a `played` item for an entry
whose last-played timestamp is null, even when its recent playtime is
nonzero: every `played` item comes from an entry with a present
last-played and positive recent playtime, every `finished` item from an
entry with positive total and zero recent playtime (where a missing
last-played sorts as time 0 — items with a null timestamp can only be
`finished` ones), and an entry with a null last-played never
contributes a `played` item at all. -/
theorem getRecentActivity_null_lastPlayed (es : List ActivityEntry) :
    (∀ it ∈ getRecentActivity es, it.action = .played →
      ∃ e ∈ es, e.steamLastPlayed.isSome = true ∧ 0 < e.steamPlaytimeRecent ∧
        it = playedItem e) ∧
    (∀ it ∈ getRecentActivity es, it.action = .finished →
      ∃ e ∈ es, 0 < e.steamPlaytimeTotal ∧ e.steamPlaytimeRecent = 0 ∧
        it = finishedItem e) ∧
    (∀ it ∈ getRecentActivity es, it.timestamp = none → it.action = .finished) ∧
    (∀ e ∈ es, e.steamLastPlayed = none → playedItem e ∉ getRecentActivity es) := by
  refine ⟨?_, ?_, ?_, ?_⟩
  · intro it hit hact
    rcases mem_getRecentActivity es it hit with ⟨e, hes, hpred, rfl⟩ | ⟨e, hes, hpred, rfl⟩
    · simp only [playedPred, Bool.and_eq_true, decide_eq_true_eq] at hpred
      exact ⟨e, hes, hpred.1, hpred.2, rfl⟩
    · simp [finishedItem] at hact
  · intro it hit hact
    rcases mem_getRecentActivity es it hit with ⟨e, hes, hpred, rfl⟩ | ⟨e, hes, hpred, rfl⟩
    · simp [playedItem] at hact
    · simp only [finishedPred, Bool.and_eq_true, decide_eq_true_eq] at hpred
      exact ⟨e, hes, hpred.1, hpred.2, rfl⟩
  · intro it hit hts
    rcases mem_getRecentActivity es it hit with ⟨e, _, hpred, rfl⟩ | ⟨e, _, _, rfl⟩
    · simp only [playedPred, Bool.and_eq_true, decide_eq_true_eq] at hpred
      rw [show (playedItem e).timestamp = e.steamLastPlayed from rfl] at hts
      rw [hts] at hpred
      simp at hpred
    · rfl
  · intro e _ hnull hmem
    rcases mem_getRecentActivity es (playedItem e) hmem with
      ⟨e2, _, hpred, heq⟩ | ⟨e2, _, _, heq⟩
    · simp only [playedPred, Bool.and_eq_true, decide_eq_true_eq] at hpred
      have hts : (playedItem e).timestamp = (playedItem e2).timestamp := by rw [heq]
      rw [show (playedItem e).timestamp = e.steamLastPlayed from rfl,
        show (playedItem e2).timestamp = e2.steamLastPlayed from rfl, hnull] at hts
      rw [← hts] at hpred
      simp at hpred
    · have : (playedItem e).action = (finishedItem e2).action := by rw [heq]
      simp [playedItem, finishedItem] at this

/-- C10 witness: in a concrete feed, the entry with nonzero recent
playtime and a null last-played date never appears as a played item. -/
theorem getRecentActivity_null_lastPlayed_witness :
    playedItem cexActNoLastPlayed ∉
      getRecentActivity [cexActPlayed, cexActNoLastPlayed, cexActFinished] ∧
    0 < cexActNoLastPlayed.steamPlaytimeRecent :=
  ⟨(getRecentActivity_null_lastPlayed
      [cexActPlayed, cexActNoLastPlayed, cexActFinished]).2.2.2
    cexActNoLastPlayed (by decide) rfl, by decide⟩

/-! ## C7: getRecentAchievements -/

/-- Each selected game contributes at most 3 achievement items. -/
theorem length_perGameUnlocks (fetch : Nat → Option (List SteamAchievement))
    (g : AchGame) : (perGameUnlocks fetch g).length ≤ 3 := by
  unfold perGameUnlocks
  cases hid : jsOrNat g.steamAppId g.appId with
  | none => simp [hid]
  | some gameAppId =>
    simp only [hid]
    cases hf : fetch gameAppId with
    | none => simp [hf]
    | some achievements =>
      simp only [hf, List.length_map]
      exact List.length_take_le 3 _

/-- Every item a game contributes arises from a fetched achievement
that is achieved with a nonzero unlock time. -/
theorem mem_perGameUnlocks (fetch : Nat → Option (List SteamAchievement))
    (g : AchGame) (it : RecentAchItem) (h : it ∈ perGameUnlocks fetch g) :
    ∃ gameAppId, jsOrNat g.steamAppId g.appId = some gameAppId ∧
      ∃ achList, fetch gameAppId = some achList ∧
        ∃ a ∈ achList, a.achieved = true ∧ 0 < a.unlockTime ∧
          it = mkRecentAchItem g gameAppId a := by
  unfold perGameUnlocks at h
  cases hid : jsOrNat g.steamAppId g.appId with
  | none => simp only [hid] at h; simp at h
  | some gameAppId =>
    simp only [hid] at h
    cases hf : fetch gameAppId with
    | none => simp only [hf] at h; simp at h
    | some achList =>
      simp only [hf] at h
      rcases List.mem_map.mp h with ⟨a, ha, rfl⟩
      have ha2 := mem_take_sortByDesc _ _ _ _ ha
      rcases List.mem_filter.mp ha2 with ⟨hal, hp⟩
      simp only [Bool.and_eq_true, decide_eq_true_eq] at hp
      exact ⟨gameAppId, rfl, achList, hf, a, hal, hp.1, hp.2, rfl⟩

/-- Every item of the final feed comes from one of the first 10
eligible games. -/
theorem mem_getRecentAchievements (fetch : Nat → Option (List SteamAchievement))
    (games : List AchGame) (it : RecentAchItem)
    (h : it ∈ getRecentAchievements fetch games) :
    ∃ g ∈ (games.filter achEligible).take 10, it ∈ perGameUnlocks fetch g := by
  unfold getRecentAchievements at h
  by_cases hemp : games.isEmpty
  · simp [hemp] at h
  · simp only [hemp, Bool.false_eq_true, if_false] at h
    exact List.mem_flatMap.mp (mem_take_sortByDesc _ _ _ _ h)

/-- C7: `getRecentAchievements` draws achievements from at most 10
eligible games (the first 10 that report statistics and a truthy app
id), keeps only achievements that are achieved with a nonzero unlock
time, takes at most 3 per game, and returns at most 15 items sorted
newest-first; a per-game fetch result influences only that game's
contribution, and a failed fetch contributes nothing (the remaining
games are still processed). -/
theorem getRecentAchievements_spec (fetch : Nat → Option (List SteamAchievement))
    (games : List AchGame) :
    (getRecentAchievements fetch games).length ≤ 15 ∧
    SortedDesc (·.unlockedAt) (getRecentAchievements fetch games) ∧
    (∃ ids : List Nat, ids.length ≤ 10 ∧
      ∀ it ∈ getRecentAchievements fetch games, it.gameAppId ∈ ids) ∧
    (∀ it ∈ getRecentAchievements fetch games,
      ∃ g ∈ (games.filter achEligible).take 10,
        ∃ gameAppId, jsOrNat g.steamAppId g.appId = some gameAppId ∧
          ∃ achList, fetch gameAppId = some achList ∧
            ∃ a ∈ achList, a.achieved = true ∧ 0 < a.unlockTime ∧
              it = mkRecentAchItem g gameAppId a) ∧
    (∀ it ∈ getRecentAchievements fetch games, 0 < it.unlockedAt) ∧
    (∀ g : AchGame, (perGameUnlocks fetch g).length ≤ 3) ∧
    (∀ (f f' : Nat → Option (List SteamAchievement)) (g : AchGame),
      (∀ i, jsOrNat g.steamAppId g.appId = some i → f i = f' i) →
      perGameUnlocks f g = perGameUnlocks f' g) ∧
    (∀ (g : AchGame) (i : Nat), jsOrNat g.steamAppId g.appId = some i →
      fetch i = none → perGameUnlocks fetch g = []) := by
  have hsrc := mem_getRecentAchievements fetch games
  refine ⟨?_, ?_, ?_, ?_, ?_, length_perGameUnlocks fetch, ?_, ?_⟩
  · unfold getRecentAchievements
    by_cases hemp : games.isEmpty
    · simp [hemp]
    · simp only [hemp, Bool.false_eq_true, if_false]
      exact List.length_take_le 15 _
  · unfold getRecentAchievements
    by_cases hemp : games.isEmpty
    · simp [hemp, SortedDesc]
    · simp only [hemp, Bool.false_eq_true, if_false]
      exact sortedDesc_take _ _ _ (sortedDesc_sortByDesc _ _)
  · refine ⟨((games.filter achEligible).take 10).filterMap
        (fun g => jsOrNat g.steamAppId g.appId), ?_, ?_⟩
    · exact le_trans (List.length_filterMap_le _ _) (List.length_take_le 10 _)
    · intro it hit
      rcases hsrc it hit with ⟨g, hg, hper⟩
      rcases mem_perGameUnlocks fetch g it hper with ⟨i, hid, _, _, a, _, _, _, rfl⟩
      exact List.mem_filterMap.mpr ⟨g, hg, hid⟩
  · intro it hit
    rcases hsrc it hit with ⟨g, hg, hper⟩
    rcases mem_perGameUnlocks fetch g it hper with
      ⟨i, hid, achList, hf, a, hal, hach, hul, rfl⟩
    exact ⟨g, hg, i, hid, achList, hf, a, hal, hach, hul, rfl⟩
  · intro it hit
    rcases hsrc it hit with ⟨g, hg, hper⟩
    rcases mem_perGameUnlocks fetch g it hper with
      ⟨i, hid, achList, hf, a, hal, hach, hul, rfl⟩
    show 0 < a.unlockTime * 1000
    exact Nat.mul_pos hul (by norm_num)
  · intro f f' g hagree
    unfold perGameUnlocks
    cases hid : jsOrNat g.steamAppId g.appId with
    | none => rfl
    | some i => simp [hagree i hid]
  · intro g i hid hf
    unfold perGameUnlocks
    rw [hid]
    simp [hf]

/-- C7 witness: one eligible game whose fetch returns three
achievements (one achieved at a nonzero time, one unachieved, one
achieved at time 0) yields exactly one feed item, and the cap and
positivity conclusions hold on it. -/
theorem getRecentAchievements_spec_witness :
    (getRecentAchievements cexFetch [cexAchGame]).length ≤ 15 ∧
    (getRecentAchievements cexFetch [cexAchGame]).length = 1 ∧
    (∀ it ∈ getRecentAchievements cexFetch [cexAchGame], 0 < it.unlockedAt) := by
  have h := getRecentAchievements_spec cexFetch [cexAchGame]
  exact ⟨h.1, by decide, h.2.2.2.2.1⟩

/-- C8 witness: the amended theorem at `limit = -1` on a concrete
two-entry ranks response and a concrete search request. -/
theorem catalog_nonpositive_limit_fetches_witness :
    (getTrendingGames (-1) false (.ok [cexRank1, cexRank2]) (fun _ => none) 5
        []).fetchIssued = true ∧
    (getTrendingGames 0 false (.ok [cexRank1]) (fun _ => none) 5 []).games = [] ∧
    (getTrendingGames (-1) false (.ok [cexRank1, cexRank2]) (fun _ => none) 5
        []).games.length = 1 ∧
    (searchGames "q" (-1) 1 (.ok ⟨[cexRawItem], 3⟩) (fun _ => none) 5
        []).fetchIssued = true := by
  have h := catalog_nonpositive_limit_fetches (-1) 1 "q" (.ok [cexRank1, cexRank2])
    (.ok ⟨[cexRawItem], 3⟩) (fun _ => none) 5 (by norm_num)
  exact ⟨h.1, h.2.1 [cexRank1], h.2.2.1 [cexRank1, cexRank2] (by norm_num), h.2.2.2⟩
